import Mathlib

/-!
Shallow embedding of the vkeyboard client (src/client/client.py) for checking
its natural-language specification.

Conventions of the embedding:
* Python strings are Lean `String`; per-character classification predicates
  (isalpha, isdigit, isprintable) are modelled on the ASCII plane, the range
  every claim and every key table entry lives in.
* The tkinter GUI objects are dropped; the mutable fields the relevant
  handlers read and write (`_mouse_enabled`, `_mouse_active`,
  `_mouse_last_pos`, the scheduled `root.after` callbacks) become an explicit
  state record, and each handler becomes a state-transition function paired
  with the list of wire messages it emits.
* Python float arithmetic on pointer coordinates is modelled with `ℚ`
  (the operands are small machine integers, so the abstraction is exact for
  the clamping facts proved here).
-/

namespace VKey

/-- ASCII model of the Python single-character test `str.isprintable`:
printable characters are the codes 0x20 (space) through 0x7e. -/
def pyIsPrintable (c : Char) : Bool :=
  0x20 ≤ c.toNat && c.toNat ≤ 0x7e

/-- KEYSYM_TO_CODE — the fixed named-key table (client.py lines 33-71),
tkinter keysym to browser-style code. -/
def KEYSYM_TO_CODE : List (String × String) := [
  ("Up", "ArrowUp"),
  ("Down", "ArrowDown"),
  ("Left", "ArrowLeft"),
  ("Right", "ArrowRight"),
  ("Home", "Home"),
  ("End", "End"),
  ("Prior", "PageUp"),
  ("Next", "PageDown"),
  ("BackSpace", "Backspace"),
  ("Delete", "Delete"),
  ("Return", "Enter"),
  ("Tab", "Tab"),
  ("Escape", "Escape"),
  ("space", "Space"),
  ("F1", "F1"),
  ("F2", "F2"),
  ("F3", "F3"),
  ("F4", "F4"),
  ("F5", "F5"),
  ("F6", "F6"),
  ("F7", "F7"),
  ("F8", "F8"),
  ("F9", "F9"),
  ("F10", "F10"),
  ("F11", "F11"),
  ("F12", "F12"),
  ("bracketleft", "BracketLeft"),
  ("bracketright", "BracketRight"),
  ("backslash", "Backslash"),
  ("semicolon", "Semicolon"),
  ("apostrophe", "Quote"),
  ("comma", "Comma"),
  ("period", "Period"),
  ("slash", "Slash"),
  ("grave", "Backquote"),
  ("minus", "Minus"),
  ("equal", "Equal")]

/-- MODIFIER_KEYSYMS — keysyms ignored as standalone key events
(client.py lines 74-80). -/
def MODIFIER_KEYSYMS : List String := [
  "Shift_L", "Shift_R",
  "Control_L", "Control_R",
  "Alt_L", "Alt_R",
  "Meta_L", "Meta_R",
  "Super_L", "Super_R"]

/-- keysym_to_code (client.py lines 83-96): convert a tkinter keysym to a
browser-style KeyboardEvent.code.  `char` is the event.char string, possibly
empty.  Python `s.upper()` on one ASCII character is `Char.toUpper`;
`s.isalpha()` / `s.isdigit()` on the characters of `s` are `Char.isAlpha` /
`Char.isDigit` (ASCII plane). -/
def keysym_to_code (keysym : String) (char : String) : Option String :=
  match KEYSYM_TO_CODE.lookup keysym with
  | some code => some code
  | none =>
    -- Letter keys
    if keysym.length == 1 && keysym.data.all Char.isAlpha then
      some ("Key" ++ String.mk (keysym.data.map Char.toUpper))
    -- Digit keys
    else if keysym.length == 1 && keysym.data.all Char.isDigit then
      some ("Digit" ++ keysym)
    -- If the char is printable and single, use keysym as-is
    else if !(char == "") && char.length == 1 && char.data.all pyIsPrintable then
      if char.data.all Char.isAlpha then
        some ("Key" ++ String.mk (char.data.map Char.toUpper))
      else
        some keysym
    else
      none

/-- The keydown wire message built by _on_key_press (client.py lines 445-453). -/
structure KeyMsg where
  type : String
  key : String
  code : String
  shift : Bool
  ctrl : Bool
  alt : Bool
  meta : Bool
deriving DecidableEq, Repr

/-- VKeyboardApp._on_key_press (client.py lines 423-455), restricted to the
message-producing logic: returns the keydown message sent to the transport,
or `none` when the event is dropped.  The Python guard `if not code: return`
drops both a `None` code and an empty-string code. -/
def on_key_press (keysym char : String) (state : Nat) : Option KeyMsg :=
  -- Skip pure modifier presses
  if keysym ∈ MODIFIER_KEYSYMS then none
  else
    -- Detect modifiers from event.state bitmask
    let shift := state &&& 0x1 != 0
    let ctrl := state &&& 0x4 != 0
    let meta := state &&& 0x8 != 0
    let alt := state &&& 0x10 != 0
    match keysym_to_code keysym char with
    | none => none
    | some code =>
      if code == "" then none
      else
        some { type := "keydown"
               key := if !(char == "") && char.data.all pyIsPrintable then char else keysym
               code := code
               shift := shift, ctrl := ctrl, alt := alt, meta := meta }

/-- List.lookup misses when no key of the association list equals the query. -/
theorem lookup_eq_none_of_forall_ne (l : List (String × String)) (s : String)
    (h : ∀ p ∈ l, p.1 ≠ s) : l.lookup s = none := by
  induction l with
  | nil => rfl
  | cons a l ih =>
    have hne : (s == a.1) = false :=
      beq_eq_false_iff_ne.mpr fun hh => h a (List.mem_cons_self a l) hh.symm
    simp only [List.lookup, hne]
    exact ih fun p hp => h p (List.mem_cons_of_mem a hp)

/-- Every key of the named-key table has at least two characters. -/
theorem keysym_table_keys_long : ∀ p ∈ KEYSYM_TO_CODE, 2 ≤ p.1.length := by
  decide

/-- A one-character keysym never hits the named-key table. -/
theorem lookup_singleton_eq_none (c : Char) :
    KEYSYM_TO_CODE.lookup (String.singleton c) = none := by
  refine lookup_eq_none_of_forall_ne _ _ fun p hp hkey => ?_
  have h2 : 2 ≤ p.1.length := keysym_table_keys_long p hp
  rw [hkey] at h2
  simp [String.singleton, String.length] at h2

/-- Every modifier keysym has at least five characters. -/
theorem modifier_keysyms_long : ∀ m ∈ MODIFIER_KEYSYMS, 5 ≤ m.length := by
  decide

/-- A one-character keysym is never a standalone modifier keysym. -/
theorem singleton_not_modifier (c : Char) :
    String.singleton c ∉ MODIFIER_KEYSYMS := by
  intro hmem
  have h5 : 5 ≤ (String.singleton c).length := modifier_keysyms_long _ hmem
  simp [String.singleton, String.length] at h5

/-!
Pointer sampler and capture gate (VKeyboardApp mouse handlers).

The mutable instance fields the handlers touch become `AppState`.
`pendingPolls` counts the `root.after(16, self._mouse_poll)` callbacks that
are scheduled but have not fired yet; `focused` is a ghost flag recording the
window-focus condition delivered by the FocusIn / FocusOut events (the Python
code stores no such flag — the handlers react to the events directly).
Each handler returns the new state together with the mousemove message it
emitted, if any.  A poll reads the environment: the absolute pointer position
`(x, y)` and the screen bounds `(sw, sh)`, bundled as `PointerSample`.
-/

/-- Environment data read by one execution of _mouse_poll: winfo_pointerx,
winfo_pointery, winfo_screenwidth, winfo_screenheight. -/
structure PointerSample where
  x : Int
  y : Int
  sw : Int
  sh : Int
deriving DecidableEq, Repr

/-- Mutable VKeyboardApp state used by the mouse handlers
(client.py lines 179-180, 379, and the after-callback queue). -/
structure AppState where
  mouse_enabled : Bool
  mouse_active : Bool
  mouse_last_pos : Option (Int × Int)
  pendingPolls : Nat
  focused : Bool
deriving DecidableEq, Repr

/-- Initial state built by VKeyboardApp.__init__: both flags false, no poll
scheduled; the freshly created window has keyboard focus. -/
def initApp : AppState :=
  { mouse_enabled := false, mouse_active := false, mouse_last_pos := none,
    pendingPolls := 0, focused := true }

/-- Python builtin min of two values: returns the second exactly when it is
strictly smaller, else the first. -/
def pyMin (a b : ℚ) : ℚ := if b < a then b else a

/-- Python builtin max of two values: returns the second exactly when it is
strictly larger, else the first. -/
def pyMax (a b : ℚ) : ℚ := if a < b then b else a

/-- Python max(0.0, min(1.0, q)) on the normalized coordinate. -/
def clamp01 (q : ℚ) : ℚ := pyMax 0 (pyMin 1 q)

/-- VKeyboardApp._mouse_poll (client.py lines 392-404).  Returns the state
after the call and the mousemove_abs coordinates sent, if any.  When active,
the handler always schedules one more callback (pendingPolls + 1); when
inactive it returns at once, without emitting and without rescheduling. -/
def mouse_poll (st : AppState) (s : PointerSample) : AppState × Option (ℚ × ℚ) :=
  if st.mouse_active = false then (st, none)
  else
    let p : Int × Int := (s.x, s.y)
    let (st1, emit) :=
      if some p ≠ st.mouse_last_pos then
        let nx := clamp01 ((s.x : ℚ) / (s.sw : ℚ))
        let ny := clamp01 ((s.y : ℚ) / (s.sh : ℚ))
        ({ st with mouse_last_pos := some p }, some (nx, ny))
      else (st, none)
    ({ st1 with pendingPolls := st1.pendingPolls + 1 }, emit)

/-- VKeyboardApp._activate_mouse (client.py lines 370-380): no-op when the
sampler is already active; otherwise set active, reset the last position to
None, and run _mouse_poll once, synchronously. -/
def activate_mouse (st : AppState) (s : PointerSample) : AppState × Option (ℚ × ℚ) :=
  if st.mouse_active then (st, none)
  else
    mouse_poll { st with mouse_active := true, mouse_last_pos := none } s

/-- VKeyboardApp._deactivate_mouse (client.py lines 382-390): no-op when
already inactive; otherwise clear the active flag.  The scheduled after
callback is not cancelled (pendingPolls is untouched). -/
def deactivate_mouse (st : AppState) : AppState :=
  if st.mouse_active = false then st
  else { st with mouse_active := false }

/-- VKeyboardApp._toggle_mouse (client.py lines 360-368): flip the intent
flag, then arm or disarm accordingly — the focus state is not consulted. -/
def toggle_mouse (st : AppState) (s : PointerSample) : AppState × Option (ℚ × ℚ) :=
  let st1 := { st with mouse_enabled := !st.mouse_enabled }
  if st1.mouse_enabled then activate_mouse st1 s
  else (deactivate_mouse st1, none)

/-- VKeyboardApp._on_focus_in (client.py lines 356-358); the ghost `focused`
flag records the focus-gained signal. -/
def on_focus_in (st : AppState) (s : PointerSample) : AppState × Option (ℚ × ℚ) :=
  let st1 := { st with focused := true }
  if st1.mouse_enabled then activate_mouse st1 s else (st1, none)

/-- VKeyboardApp._on_focus_out (client.py lines 353-354); the ghost `focused`
flag records the focus-lost signal. -/
def on_focus_out (st : AppState) : AppState :=
  deactivate_mouse { st with focused := false }

/-- One scheduled _mouse_poll after-callback fires.  When no callback is
pending, nothing can fire and the state is unchanged. -/
def fire_poll (st : AppState) (s : PointerSample) : AppState × Option (ℚ × ℚ) :=
  if st.pendingPolls = 0 then (st, none)
  else mouse_poll { st with pendingPolls := st.pendingPolls - 1 } s

/-- Events driving the mouse-related part of the app. -/
inductive AppEvent where
  | toggle (s : PointerSample)
  | focusIn (s : PointerSample)
  | focusOut
  | timerFire (s : PointerSample)
deriving DecidableEq, Repr

/-- Dispatch one event to its handler. -/
def stepApp (st : AppState) : AppEvent → AppState × Option (ℚ × ℚ)
  | .toggle s => toggle_mouse st s
  | .focusIn s => on_focus_in st s
  | .focusOut => (on_focus_out st, none)
  | .timerFire s => fire_poll st s

/-- Run a sequence of events, collecting every emitted mousemove message. -/
def runApp (st : AppState) : List AppEvent → AppState × List (ℚ × ℚ)
  | [] => (st, [])
  | e :: es =>
    let (st1, m) := stepApp st e
    let (st2, ms) := runApp st1 es
    (st2, m.toList ++ ms)

/-- VKeyboardApp._mouse_scroll (client.py lines 414-421): normalize the raw
wheel delta and return the scroll steps sent, if any (`if steps:` drops a
zero value). -/
def mouse_scroll (delta : Int) : Option Int :=
  let steps := if 120 ≤ delta.natAbs then Int.fdiv delta 120 else delta
  if steps ≠ 0 then some steps else none

/-!
Transport (JsonTransport).
-/

/-- Why one iteration of the connect loop ended: the connection attempt
failed (OSError / WebSocketException), or it connected and the websocket
later closed — `byDisconnect` marks a closure provoked by the disconnect()
stop operation rather than by the peer or the network. -/
inductive LoopOutcome where
  | failed
  | served (byDisconnect : Bool)
deriving DecidableEq, Repr

/-- Observable actions of one run of JsonTransport._connect_loop
(client.py lines 124-145): start a connection attempt, fire the status
callback, sleep the fixed retry delay. -/
inductive LoopAction where
  | attempt
  | notifyUp
  | notifyDown (byDisconnect : Bool)
  | sleep
deriving DecidableEq, Repr

/-- The actions of a single iteration of the `while True:` body.  A failed
attempt still reaches the `finally:` block and fires the down notification;
a served connection notifies up, then down when the websocket closes; both
paths end with the one-second sleep before the loop repeats. -/
def iterActions : LoopOutcome → List LoopAction
  | .failed => [.attempt, .notifyDown false, .sleep]
  | .served b => [.attempt, .notifyUp, .notifyDown b, .sleep]

/-- The action trace of the connect loop across a finite prefix of iteration
outcomes.  The Python loop is `while True:` with no break, so every finite
outcome list is a legitimate prefix of its behaviour. -/
def connect_loop : List LoopOutcome → List LoopAction
  | [] => []
  | o :: os => iterActions o ++ connect_loop os

/-- The suffix of a trace strictly after the first stop-provoked down
notification (the transition to Disconnected caused by disconnect()). -/
def afterStop : List LoopAction → List LoopAction
  | [] => []
  | a :: tr => if a = .notifyDown true then tr else afterStop tr

/-- Fields of JsonTransport read by send (client.py lines 106-112, 147-150):
the current websocket, whether the background loop exists, and the
connected flag.  The class has no queue or buffer field. -/
structure TransportState where
  ws : Option Nat
  loopStarted : Bool
  connected : Bool
deriving DecidableEq, Repr

/-- Network-side effect of JsonTransport.send: scheduling the _send
coroutine on the background loop for a given websocket. -/
inductive SendAction where
  | scheduleSend (conn : Nat) (msg : String)
deriving DecidableEq, Repr

/-- JsonTransport.send (client.py lines 147-150): read self._ws once; only
when it is a live websocket and the loop exists is a send scheduled.  The
state is returned unchanged in every case — send never mutates the
transport. -/
def transport_send (st : TransportState) (msg : String) : TransportState × List SendAction :=
  match st.ws with
  | some w => if st.loopStarted then (st, [.scheduleSend w msg]) else (st, [])
  | none => (st, [])

/-! Helper lemmas shared by the claim theorems. -/

/-- The clamped coordinate is nonnegative. -/
theorem clamp01_nonneg (q : ℚ) : 0 ≤ clamp01 q := by
  unfold clamp01 pyMax pyMin
  split_ifs <;> linarith

/-- The clamped coordinate is at most one. -/
theorem clamp01_le_one (q : ℚ) : clamp01 q ≤ 1 := by
  unfold clamp01 pyMax pyMin
  split_ifs <;> linarith

/-!
Claim theorems.
-/

/-- Claim C5 (confirmed): for a raw wheel delta that is a nonzero multiple of
the notch size 120, the emitted steps value is the delta divided by 120; for
a nonzero delta of magnitude below 120 the delta passes through unchanged; in
particular the deltas 120, -120, 45, -45 yield steps 1, -1, 45, -45. -/
theorem C5_scroll_normalization (d k : Int) :
    (d = 120 * k → k ≠ 0 → mouse_scroll d = some k)
    ∧ (d.natAbs < 120 → d ≠ 0 → mouse_scroll d = some d)
    ∧ mouse_scroll 120 = some 1
    ∧ mouse_scroll (-120) = some (-1)
    ∧ mouse_scroll 45 = some 45
    ∧ mouse_scroll (-45) = some (-45) := by
  refine ⟨?_, ?_, by decide, by decide, by decide, by decide⟩
  · rintro rfl hk
    have habs : 120 ≤ (120 * k).natAbs := by
      rw [Int.natAbs_mul]
      have h1 : 1 ≤ k.natAbs := Nat.one_le_iff_ne_zero.mpr (Int.natAbs_ne_zero.mpr hk)
      calc (120 : Nat) = 120 * 1 := by norm_num
        _ ≤ (120 : Int).natAbs * k.natAbs := Nat.mul_le_mul_left _ h1
    have hdiv : Int.fdiv (120 * k) 120 = k := Int.mul_fdiv_cancel_left k (by norm_num)
    simp only [mouse_scroll, if_pos habs, hdiv, if_pos hk]
  · intro hlt hne
    have hcond : ¬ 120 ≤ d.natAbs := Nat.not_le.mpr hlt
    simp only [mouse_scroll, if_neg hcond, if_pos hne]

/-- Witness for C5 at the concrete deltas 240 (an exact multiple) and 45. -/
theorem C5_scroll_normalization_witness :
    mouse_scroll 240 = some 2 ∧ mouse_scroll 45 = some 45 :=
  ⟨(C5_scroll_normalization 240 2).1 (by decide) (by decide),
   ((C5_scroll_normalization 45 0).2.1 (by decide) (by decide))⟩

/-- Claim C7 (confirmed): whenever an armed poll emits a Move message, its
coordinates are clamped into the unit square, for every raw pointer position
and positive screen bounds, including positions outside the bounds. -/
theorem C7_move_clamped (st : AppState) (s : PointerSample) (nx ny : ℚ)
    (hsw : 0 < s.sw) (hsh : 0 < s.sh)
    (h : (mouse_poll st s).2 = some (nx, ny)) :
    0 ≤ nx ∧ nx ≤ 1 ∧ 0 ≤ ny ∧ ny ≤ 1 := by
  by_cases hact : st.mouse_active = false
  · simp [mouse_poll, hact] at h
  · simp only [mouse_poll, if_neg hact] at h
    by_cases hpos : some ((s.x, s.y) : Int × Int) ≠ st.mouse_last_pos
    · simp only [if_pos hpos, Option.some.injEq, Prod.mk.injEq] at h
      obtain ⟨hx, hy⟩ := h
      exact ⟨hx ▸ clamp01_nonneg _, hx ▸ clamp01_le_one _,
             hy ▸ clamp01_nonneg _, hy ▸ clamp01_le_one _⟩
    · simp [if_neg hpos] at h

/-- Witness for C7: an armed state polled at position (3, 1) on a 2 by 2
screen — x overflows the bounds and its normalized coordinate is clamped. -/
theorem C7_move_clamped_witness :
    0 ≤ clamp01 (((3 : Int) : ℚ) / ((2 : Int) : ℚ))
    ∧ clamp01 (((3 : Int) : ℚ) / ((2 : Int) : ℚ)) ≤ 1
    ∧ 0 ≤ clamp01 (((1 : Int) : ℚ) / ((2 : Int) : ℚ))
    ∧ clamp01 (((1 : Int) : ℚ) / ((2 : Int) : ℚ)) ≤ 1 :=
  C7_move_clamped
    { mouse_enabled := true, mouse_active := true, mouse_last_pos := none,
      pendingPolls := 0, focused := true }
    ⟨3, 1, 2, 2⟩ _ _ (by decide) (by decide) rfl

/-- Claim C9 (confirmed): send while Disconnected (no live websocket) is a
no-op — the pure step function returns normally, emits no network action,
and leaves the transport state unchanged; the state has no queue component,
so the event cannot be delivered after a later transition to Connected. -/
theorem C9_send_disconnected_noop (st : TransportState) (msg : String)
    (hws : st.ws = none) (hconn : st.connected = false) :
    transport_send st msg = (st, []) := by
  simp only [transport_send, hws]

/-- Witness for C9 at the disconnected transport state with a live loop. -/
theorem C9_send_disconnected_noop_witness :
    transport_send ⟨none, true, false⟩ "x" = (⟨none, true, false⟩, []) :=
  C9_send_disconnected_noop ⟨none, true, false⟩ "x" rfl rfl

/-- Claim C6 (confirmed): while armed, a poll emits a Move exactly when the
sampled position differs from the last emitted one; in particular the second
of two consecutive polls reading the same position emits nothing, so a pair
of polls reading a fresh position emits exactly one Move. -/
theorem C6_move_coalescing (st : AppState) (s : PointerSample)
    (hact : st.mouse_active = true) :
    ((mouse_poll st s).2.isSome = true ↔ some ((s.x, s.y) : Int × Int) ≠ st.mouse_last_pos)
    ∧ (mouse_poll (mouse_poll st s).1 s).2 = none
    ∧ (some ((s.x, s.y) : Int × Int) ≠ st.mouse_last_pos →
        (mouse_poll st s).2.isSome = true
        ∧ (mouse_poll (mouse_poll st s).1 s).2 = none) := by
  obtain ⟨en, ac, lp, pp, fo⟩ := st
  replace hact : ac = true := hact
  subst hact
  by_cases hpos : some ((s.x, s.y) : Int × Int) ≠ lp
  · simp [mouse_poll, hpos]
  · simp [mouse_poll, hpos]

/-- Witness for C6: an armed, freshly activated state (last position None)
polled twice at (3, 1) emits on the first poll and not on the second. -/
theorem C6_move_coalescing_witness :
    (mouse_poll
        { mouse_enabled := true, mouse_active := true, mouse_last_pos := none,
          pendingPolls := 0, focused := true } ⟨3, 1, 2, 2⟩).2.isSome = true
    ∧ (mouse_poll
        (mouse_poll
          { mouse_enabled := true, mouse_active := true, mouse_last_pos := none,
            pendingPolls := 0, focused := true } ⟨3, 1, 2, 2⟩).1 ⟨3, 1, 2, 2⟩).2 = none :=
  (C6_move_coalescing
    { mouse_enabled := true, mouse_active := true, mouse_last_pos := none,
      pendingPolls := 0, focused := true } ⟨3, 1, 2, 2⟩ rfl).2.2 (by decide)

/-- Claim C3 (corrected) — counterexample to the claim as stated: from the
unfocused state reached by a focus-lost signal, toggling the mouse relay on
does not merely record intent: it arms the sampler at once (mouse_active
becomes true) and even emits a Move message, while focused is still false. -/
theorem C3_counterexample :
    ((runApp initApp [.focusOut]).1.focused = false
      ∧ (runApp initApp [.focusOut]).1.mouse_enabled = false
      ∧ (runApp initApp [.focusOut]).1.mouse_active = false)
    ∧ (stepApp (runApp initApp [.focusOut]).1 (.toggle ⟨3, 1, 2, 2⟩)).1.focused = false
    ∧ (stepApp (runApp initApp [.focusOut]).1 (.toggle ⟨3, 1, 2, 2⟩)).1.mouse_active = true
    ∧ (stepApp (runApp initApp [.focusOut]).1 (.toggle ⟨3, 1, 2, 2⟩)).2.isSome = true := by
  decide

/-- Claim C3 (corrected), amended: the toggle handler flips the intent flag
and then arms (when turning on) or disarms (when turning off) the sampler
unconditionally — it never consults the focus state, so toggling on while
unfocused arms the sampler immediately instead of leaving it disarmed. -/
theorem C3_amended (st : AppState) (s : PointerSample) :
    ((toggle_mouse st s).1.mouse_enabled = !st.mouse_enabled)
    ∧ ((toggle_mouse st s).1.focused = st.focused)
    ∧ (st.mouse_enabled = false → (toggle_mouse st s).1.mouse_active = true)
    ∧ (st.mouse_enabled = true →
        (toggle_mouse st s).1.mouse_active = false ∧ (toggle_mouse st s).2 = none) := by
  obtain ⟨en, ac, lp, pp, fo⟩ := st
  cases en
  · cases ac
    · by_cases hpos : some ((s.x, s.y) : Int × Int) ≠ (lp : Option (Int × Int))
      · simp [toggle_mouse, activate_mouse, mouse_poll, hpos]
      · simp [toggle_mouse, activate_mouse, mouse_poll, hpos]
    · simp [toggle_mouse, activate_mouse]
  · simp [toggle_mouse, deactivate_mouse]
    cases ac <;> simp

/-- Witness for C3 amended: toggling on from the disarmed, unfocused initial
situation arms the sampler. -/
theorem C3_amended_witness :
    (toggle_mouse
      { mouse_enabled := false, mouse_active := false, mouse_last_pos := none,
        pendingPolls := 0, focused := false } ⟨3, 1, 2, 2⟩).1.mouse_active = true :=
  (C3_amended
    { mouse_enabled := false, mouse_active := false, mouse_last_pos := none,
      pendingPolls := 0, focused := false } ⟨3, 1, 2, 2⟩).2.2.1 rfl

/-- Claim C4 (corrected) — counterexample to the claim as stated: disarming
does not cancel the pending poll timer.  After arming (which leaves one
scheduled callback), deactivating keeps pendingPolls at 1, and that callback
still fires once afterwards (fire_poll consumes it). -/
theorem C4_counterexample :
    ((runApp initApp [.toggle ⟨3, 1, 2, 2⟩]).1.mouse_active = true
      ∧ (runApp initApp [.toggle ⟨3, 1, 2, 2⟩]).1.pendingPolls = 1)
    ∧ (deactivate_mouse (runApp initApp [.toggle ⟨3, 1, 2, 2⟩]).1).pendingPolls = 1
    ∧ (fire_poll (deactivate_mouse (runApp initApp [.toggle ⟨3, 1, 2, 2⟩]).1)
        ⟨3, 1, 2, 2⟩).1.pendingPolls = 0 := by
  decide

/-- Claim C4 (corrected), amended: disarming is idempotent and leaves the
pending timer in place (pendingPolls unchanged, nothing cancelled); the one
callback that still fires in the disarmed state emits nothing and does not
reschedule, so the poll chain ends and no Move is emitted after disarm. -/
theorem C4_amended (st : AppState) (s : PointerSample) :
    deactivate_mouse (deactivate_mouse st) = deactivate_mouse st
    ∧ (st.mouse_active = false → deactivate_mouse st = st)
    ∧ (deactivate_mouse st).pendingPolls = st.pendingPolls
    ∧ (st.mouse_active = false →
        (mouse_poll st s).2 = none
        ∧ (fire_poll st s).2 = none
        ∧ (fire_poll st s).1 = { st with pendingPolls := st.pendingPolls - 1 }) := by
  obtain ⟨en, ac, lp, pp, fo⟩ := st
  cases ac
  · refine ⟨rfl, fun _ => rfl, rfl, fun _ => ⟨rfl, ?_, ?_⟩⟩
    · cases pp <;> simp [fire_poll, mouse_poll]
    · cases pp <;> simp [fire_poll, mouse_poll]
  · refine ⟨rfl, fun h => ?_, rfl, fun h => ?_⟩ <;> simp at h

/-- Witness for C4 amended at a disarmed state with one stale pending
callback: the callback fires without emitting and without rescheduling. -/
theorem C4_amended_witness :
    (mouse_poll
        { mouse_enabled := true, mouse_active := false, mouse_last_pos := some (3, 1),
          pendingPolls := 1, focused := true } ⟨3, 1, 2, 2⟩).2 = none
    ∧ (fire_poll
        { mouse_enabled := true, mouse_active := false, mouse_last_pos := some (3, 1),
          pendingPolls := 1, focused := true } ⟨3, 1, 2, 2⟩).2 = none
    ∧ (fire_poll
        { mouse_enabled := true, mouse_active := false, mouse_last_pos := some (3, 1),
          pendingPolls := 1, focused := true } ⟨3, 1, 2, 2⟩).1
      = { mouse_enabled := true, mouse_active := false, mouse_last_pos := some (3, 1),
          pendingPolls := 0, focused := true } :=
  (C4_amended
    { mouse_enabled := true, mouse_active := false, mouse_last_pos := some (3, 1),
      pendingPolls := 1, focused := true } ⟨3, 1, 2, 2⟩).2.2.2 rfl

/-- Claim C10 (corrected) — counterexample to the claim as stated: at most
one pending _mouse_poll chain is not an invariant.  Toggling on, off, and on
again before the stale callback fires leaves two scheduled callbacks, and
the doubled rate persists: after both fire (each rescheduling), two are
pending again. -/
theorem C10_counterexample :
    (runApp initApp
      [.toggle ⟨3, 1, 2, 2⟩, .toggle ⟨3, 1, 2, 2⟩, .toggle ⟨3, 1, 2, 2⟩]).1.pendingPolls = 2
    ∧ (runApp initApp
      [.toggle ⟨3, 1, 2, 2⟩, .toggle ⟨3, 1, 2, 2⟩, .toggle ⟨3, 1, 2, 2⟩,
        .timerFire ⟨3, 1, 2, 2⟩, .timerFire ⟨3, 1, 2, 2⟩]).1.pendingPolls = 2 := by
  decide

/-- Claim C10 (corrected), amended: calling _activate_mouse while the
sampler is already active is a complete no-op — state unchanged, nothing
emitted, no second polling chain started.  (The at-most-one-chain invariant
still fails, through disarm followed by re-arm, not through activate.) -/
theorem C10_amended (st : AppState) (s : PointerSample)
    (h : st.mouse_active = true) :
    activate_mouse st s = (st, none) := by
  simp [activate_mouse, h]

/-- Witness for C10 amended at an armed state with one pending callback. -/
theorem C10_amended_witness :
    activate_mouse
      { mouse_enabled := true, mouse_active := true, mouse_last_pos := some (3, 1),
        pendingPolls := 1, focused := true } ⟨3, 1, 2, 2⟩
    = ({ mouse_enabled := true, mouse_active := true, mouse_last_pos := some (3, 1),
         pendingPolls := 1, focused := true }, none) :=
  C10_amended
    { mouse_enabled := true, mouse_active := true, mouse_last_pos := some (3, 1),
      pendingPolls := 1, focused := true } ⟨3, 1, 2, 2⟩ rfl

/-- Claim C2 (corrected) — counterexample to the claim as stated: in the
action trace of a loop run whose first connection is closed by disconnect()
(the stop operation), the suffix after the stop-provoked Disconnected
notification still contains a new connection attempt — the reconnect loop
goes on initiating connections after stop. -/
theorem C2_counterexample :
    afterStop (connect_loop [.served true, .failed])
      = [.sleep, .attempt, .notifyDown false, .sleep]
    ∧ LoopAction.attempt ∈ afterStop (connect_loop [.served true, .failed]) := by
  decide

/-- Claim C2 (corrected), amended: disconnect() does drive the state to
Disconnected — the iteration it interrupts fires the down notification — but
further automatic reconnects are not suppressed: the loop body is an
unconditional while-True, so every later iteration, whatever outcomes came
before it, begins with a fresh connection attempt after the fixed delay. -/
theorem C2_amended :
    (∀ os o, connect_loop (os ++ [o]) = connect_loop os ++ iterActions o)
    ∧ (∀ o, (iterActions o).head? = some .attempt)
    ∧ LoopAction.notifyDown true ∈ iterActions (.served true) := by
  refine ⟨?_, ?_, by decide⟩
  · intro os o
    induction os with
    | nil => simp [connect_loop]
    | cons a l ih => simp [connect_loop, ih]
  · intro o
    cases o <;> rfl

/-- Claim C8 (confirmed): a single alphabetic character keysym (never in the
named-key table, whose keys all have at least two characters) yields the
code Key followed by the uppercased letter, and the keydown message carries
exactly that code for every modifier bitmask — keysym_to_code never reads
the modifier state, and the sent code is the same constant for all states. -/
theorem C8_letter_code (c : Char) (halpha : c.isAlpha = true)
    (char : String) (state : Nat) :
    keysym_to_code (String.singleton c) char
      = some ("Key" ++ String.singleton c.toUpper)
    ∧ (on_key_press (String.singleton c) char state).map KeyMsg.code
      = some ("Key" ++ String.singleton c.toUpper) := by
  have hk : keysym_to_code (String.singleton c) char
      = some ("Key" ++ String.singleton c.toUpper) := by
    have hcond : ((String.singleton c).length == 1
        && (String.singleton c).data.all Char.isAlpha) = true := by
      simp [String.singleton, String.length, halpha]
    simp only [keysym_to_code, lookup_singleton_eq_none c, hcond, if_true]
    rfl
  refine ⟨hk, ?_⟩
  have hmod : String.singleton c ∉ MODIFIER_KEYSYMS := singleton_not_modifier c
  have hne : (("Key" ++ String.singleton c.toUpper) == "") = false := by
    rw [beq_eq_false_iff_ne]
    intro h
    have hlen := congrArg String.length h
    rw [String.length_append] at hlen
    have h3 : ("Key" : String).length = 3 := rfl
    have h1 : (String.singleton c.toUpper).length = 1 := rfl
    have h0 : ("" : String).length = 0 := rfl
    omega
  simp only [on_key_press, if_neg hmod, hk, hne, Bool.false_eq_true, if_false]
  rfl

/-- Witness for C8 at the letter q with modifier bitmask 13. -/
theorem C8_letter_code_witness :
    keysym_to_code (String.singleton 'q') "q" = some ("Key" ++ String.singleton 'Q')
    ∧ (on_key_press (String.singleton 'q') "q" 13).map KeyMsg.code
      = some ("Key" ++ String.singleton 'Q') :=
  C8_letter_code 'q' (by decide) "q" 13

/-- Claim C1 (corrected) — counterexample to the claim as stated: the raw
input keysym "exclam" with char "!" — not in the named-key table, not a
single letter or digit, char a single printable non-alphabetic character —
is not dropped: keysym_to_code falls back to the raw keysym, and a keydown
message is sent carrying that code. -/
theorem C1_counterexample :
    KEYSYM_TO_CODE.lookup "exclam" = none
    ∧ keysym_to_code "exclam" "!" = some "exclam"
    ∧ (on_key_press "exclam" "!" 0).map KeyMsg.code = some "exclam" := by
  decide

/-- Claim C1 (corrected), amended: for a raw input missing the table, not a
single letter or digit, with a single printable char: an alphabetic char
yields code Key plus the uppercased char (the claim is right there), but a
non-alphabetic char is not dropped — the code falls back to the raw keysym
verbatim and the keydown message is sent with it (only the degenerate empty
keysym, which real key events never produce, would be dropped by the
falsy-code guard). -/
theorem C1_amended (keysym char : String) (state : Nat)
    (h1 : KEYSYM_TO_CODE.lookup keysym = none)
    (h2 : (keysym.length == 1 && keysym.data.all Char.isAlpha) = false)
    (h3 : (keysym.length == 1 && keysym.data.all Char.isDigit) = false)
    (h4 : (!(char == "") && char.length == 1 && char.data.all pyIsPrintable) = true) :
    (char.data.all Char.isAlpha = true →
      keysym_to_code keysym char
        = some ("Key" ++ String.mk (char.data.map Char.toUpper)))
    ∧ (char.data.all Char.isAlpha = false →
        keysym_to_code keysym char = some keysym
        ∧ (keysym ∉ MODIFIER_KEYSYMS → keysym ≠ "" →
            (on_key_press keysym char state).map KeyMsg.code = some keysym)) := by
  have hbase : keysym_to_code keysym char
      = if char.data.all Char.isAlpha
          then some ("Key" ++ String.mk (char.data.map Char.toUpper))
          else some keysym := by
    simp only [keysym_to_code, h1, h2, h3, h4, Bool.false_eq_true, if_false, if_true]
  constructor
  · intro ha
    rw [hbase, if_pos ha]
  · intro hna
    have hk2 : keysym_to_code keysym char = some keysym := by
      rw [hbase, if_neg (by simp [hna])]
    refine ⟨hk2, fun hmod hne => ?_⟩
    have hbeq : (keysym == "") = false := beq_eq_false_iff_ne.mpr hne
    simp only [on_key_press, if_neg hmod, hk2, hbeq, Bool.false_eq_true, if_false]
    rfl

/-- Witness for C1 amended at the concrete input keysym "exclam", char "!",
no modifiers held. -/
theorem C1_amended_witness :
    keysym_to_code "exclam" "!" = some "exclam"
    ∧ (on_key_press "exclam" "!" 0).map KeyMsg.code = some "exclam" := by
  have h := (C1_amended "exclam" "!" 0 (by decide) (by decide) (by decide)
    (by decide)).2 (by decide)
  exact ⟨h.1, h.2 (by decide) (by decide)⟩

end VKey
